import Mathlib

/-!
Shallow embedding of the Trinity email utility (three Python scripts:
`send_email.py`, `quick_email_setup.py`, `setup_email.py`) and proofs about it.

Conventions of the embedding:
* Python scalar values occurring in the JSON configuration are `PyVal`.
* A Python `dict` (insertion ordered) is a `List (String × PyVal)`.
* Raised Python exceptions are `Except.error` of a `PyError`.
* The filesystem seen by `send_email` is abstracted as an existence test plus a
  fallible read (`FileSys`); the config-file on disk is an `Option FileState`,
  and the write/chmod side effects of the three scripts are recorded as `FsOp`
  traces.
* `json.load` is an uninterpreted parameter (`String → Except PyError Config`)
  since no claim depends on JSON parsing itself; `json.dumps` on the flat,
  escape-free objects this repository writes is modelled concretely.
* The wall clock (`datetime.now().strftime("%Y-%m-%d %H:%M:%S")`) is passed in
  as a string `ts`, and the SMTP network session as its outcome
  `net : Except PyError Unit`.
-/

namespace Trinity

/-- Python scalar values as they occur in the JSON configuration. -/
inductive PyVal where
  | str (s : String)
  | int (n : Int)
deriving DecidableEq, Repr

/-- Python `str()` of a scalar value. -/
def PyVal.pyStr : PyVal → String
  | .str s => s
  | .int n => toString n

/-- Python exceptions raised by the scripts (the payload is informal message text;
Python surrounding quotes of `KeyError` reprs are not reproduced). -/
inductive PyError where
  | keyError (key : String)
  | valueError (msg : String)
  | ioError (msg : String)
  | smtpError (msg : String)
  | jsonError (msg : String)
deriving DecidableEq, Repr

/-- Message text used when an exception is printed via `str(e)`. -/
def PyError.message : PyError → String
  | .keyError k => k
  | .valueError m => m
  | .ioError m => m
  | .smtpError m => m
  | .jsonError m => m

instance {ε α : Type} [DecidableEq ε] [DecidableEq α] : DecidableEq (Except ε α) := fun a b =>
  match a, b with
  | .ok x, .ok y =>
      if h : x = y then .isTrue (by rw [h]) else .isFalse (fun hc => h (Except.ok.inj hc))
  | .error x, .error y =>
      if h : x = y then .isTrue (by rw [h]) else .isFalse (fun hc => h (Except.error.inj hc))
  | .ok _, .error _ => .isFalse (fun hc => Except.noConfusion hc)
  | .error _, .ok _ => .isFalse (fun hc => Except.noConfusion hc)

/-- The flat JSON configuration object: an insertion-ordered Python dict. -/
abbrev Config := List (String × PyVal)

/-- Python `dict.get(key)`: `none` when the key is absent. -/
def Config.get (c : Config) (k : String) : Option PyVal :=
  (List.find? (fun kv => kv.1 == k) c).map (fun kv => kv.2)

/-- Python `dict[key]`: raises `KeyError` when the key is absent. -/
def Config.item (c : Config) (k : String) : Except PyError PyVal :=
  match c.get k with
  | some v => .ok v
  | none => .error (.keyError k)

/-- Does `startsWithSeq p s` hold: is `p` a leading segment of `s`? -/
def startsWithSeq : List Char → List Char → Bool
  | [], _ => true
  | _ :: _, [] => false
  | p :: ps, c :: cs => p == c && startsWithSeq ps cs

/-- Does `pat` occur as a contiguous segment of `s`? -/
def containsSeq (pat : List Char) : List Char → Bool
  | [] => pat.isEmpty
  | c :: cs => startsWithSeq pat (c :: cs) || containsSeq pat cs

/-- Python `pat in s` on strings. -/
def strContains (s pat : String) : Bool := containsSeq pat.toList s.toList

/-- Python `s.strip()`: drop leading and trailing whitespace (the ASCII whitespace the
repository ever feeds it). -/
def pyStrip (s : String) : String :=
  String.mk (((s.toList.dropWhile Char.isWhitespace).reverse.dropWhile
    Char.isWhitespace).reverse)

/-- Python `s.lower()` on the ASCII key names this repository uses. -/
def pyToLower (s : String) : String := String.mk (s.toList.map Char.toLower)

/-- Python truthiness of an optional string: `None` and `""` are falsy. -/
def pyTruthy : Option String → Bool
  | none => false
  | some s => !(s == "")

/-- Python `os.path.basename`: the final path component. -/
def basename (p : String) : String := (p.splitOn "/").getLastD ""

/-- JSON rendering of one scalar (the strings this repository writes need no escaping). -/
def jsonScalar : PyVal → String
  | .str s => "\"" ++ s ++ "\""
  | .int n => toString n

/-- Python `json.dumps(c, indent = ind)` for a flat, nonempty object of scalars. -/
def jsonDumps (ind : Nat) (c : Config) : String :=
  "\x7b\n" ++
    String.intercalate ",\n"
      (c.map (fun kv => String.mk (List.replicate ind ' ') ++ "\"" ++ kv.1 ++ "\": " ++
        jsonScalar kv.2)) ++
  "\n\x7d"

/-- Read-only filesystem view used by `send_email`: an existence test and a byte read.
`readFile` may fail even when `pathExists` is true (permission errors and the like). -/
structure FileSys where
  pathExists : String → Bool
  readFile : String → Except PyError (List Nat)

/-- One MIME part of the outgoing message. The base64 transfer encoding of binary parts
carries no information, so a binary part stores the raw payload plus the
`Content-Disposition` filename. -/
inductive MimePart where
  | text (content : String) (subtype : String)
  | binary (payload : List Nat) (filename : String)
deriving DecidableEq, Repr

/-- Is the part a binary attachment part? -/
def MimePart.isBinary : MimePart → Bool
  | .binary _ _ => true
  | .text _ _ => false

/-- The `multipart/alternative` message assembled by `send_email`. `toAddr` is the value of
the `To` header, which Python lets be `None` when no recipient is resolvable. -/
structure EmailMessage where
  fromAddr : PyVal
  toAddr : Option PyVal
  subject : String
  parts : List MimePart
deriving DecidableEq, Repr

/-- Keyword arguments of `TrinityEmailSender.send_email`, with the Python defaults. -/
structure EmailArgs where
  to_email : Option String := none
  subject : String := "Trinity Notification"
  body : String := "Hello from Trinity!"
  attachment_path : Option String := none
  html_body : Option String := none
deriving DecidableEq, Repr

/-- The suffix `send_email` appends to every body, where `ts` is
`datetime.now().strftime("%Y-%m-%d %H:%M:%S")`. -/
def timestampSuffix (ts : String) : String := "\n\nSent from Trinity at " ++ ts

/-- Recipient resolution of `send_email`: a falsy `to_email` (`None` or `""`) is replaced
by `config.get("default_recipient")`. -/
def resolveTo (cfg : Config) (a : EmailArgs) : Option PyVal :=
  if pyTruthy a.to_email then a.to_email.map PyVal.str else cfg.get "default_recipient"

/-- The text parts attached by `send_email`: always the timestamped plain part, then the
HTML part when `html_body` is truthy. -/
def textParts (ts : String) (a : EmailArgs) : List MimePart :=
  if pyTruthy a.html_body then
    [MimePart.text (a.body ++ timestampSuffix ts) "plain"] ++
      [MimePart.text (a.html_body.getD "") "html"]
  else [MimePart.text (a.body ++ timestampSuffix ts) "plain"]

/-- The message-construction phase of `TrinityEmailSender.send_email` (everything before
the `try:` block): recipient defaulting, the `From` header lookup (which can raise
`KeyError`), the timestamped plain part, the optional HTML part, and the optional
attachment part (skipped when the path is falsy or absent; reading it can raise). -/
def buildMessage (cfg : Config) (fs : FileSys) (ts : String) (a : EmailArgs) :
    Except PyError EmailMessage :=
  match cfg.item "sender_email" with
  | .error e => .error e
  | .ok sender =>
    match a.attachment_path with
    | some p =>
        if p != "" && fs.pathExists p then
          match fs.readFile p with
          | .error e => .error e
          | .ok payload =>
              .ok { fromAddr := sender, toAddr := resolveTo cfg a, subject := a.subject,
                    parts := textParts ts a ++ [MimePart.binary payload (basename p)] }
        else
          .ok { fromAddr := sender, toAddr := resolveTo cfg a, subject := a.subject,
                parts := textParts ts a }
    | none =>
        .ok { fromAddr := sender, toAddr := resolveTo cfg a, subject := a.subject,
              parts := textParts ts a }

/-- Python `str()` of the resolved recipient (`str(None) = "None"`). -/
def pyStrOpt : Option PyVal → String
  | some v => v.pyStr
  | none => "None"

/-- The body of the `try:` block of `send_email`: config lookups for server, port and
credentials, then the SMTP connect/STARTTLS/login/sendmail session, whose outcome is the
abstract parameter `net`. -/
def sendAttempt (cfg : Config) (net : Except PyError Unit) : Except PyError Unit :=
  match cfg.item "smtp_server" with
  | .error e => .error e
  | .ok _ =>
    match cfg.item "smtp_port" with
    | .error e => .error e
    | .ok _ =>
      match cfg.item "sender_email" with
      | .error e => .error e
      | .ok _ =>
        match cfg.item "sender_password" with
        | .error e => .error e
        | .ok _ => net

/-- The `try:`/`except:` of `send_email`: every exception of the attempt is caught and
becomes `false` plus a printed error line; success prints a confirmation line. -/
def trySend (cfg : Config) (toAddr : Option PyVal) (net : Except PyError Unit) :
    Bool × List String :=
  match sendAttempt cfg net with
  | .ok _ => (true, ["✅ Email sent successfully to " ++ pyStrOpt toAddr])
  | .error e => (false, ["❌ Error sending email: " ++ e.message])

/-- Observable result of a completed (non-raising) `send_email` call: the returned
boolean, the message handed to `sendmail`, and the printed lines. -/
structure SendResult where
  success : Bool
  message : EmailMessage
  output : List String
deriving DecidableEq, Repr

/-- Model of `TrinityEmailSender.send_email`: build the message (exceptions here
propagate), then run the guarded send. -/
def send_email (cfg : Config) (fs : FileSys) (ts : String) (net : Except PyError Unit)
    (a : EmailArgs) : Except PyError SendResult :=
  match buildMessage cfg fs ts a with
  | .error e => .error e
  | .ok m =>
      .ok { success := (trySend cfg m.toAddr net).1, message := m,
            output := (trySend cfg m.toAddr net).2 }

/-- The fixed priority-to-subject table of `send_notification`. -/
def notificationSubjects : List (String × String) :=
  [("low", "🔔 Trinity Notification"),
   ("normal", "📧 Trinity Alert"),
   ("high", "🚨 Trinity Important Alert")]

/-- Python `table.get(k, d)` for a string table. -/
def lookupD (t : List (String × String)) (k d : String) : String :=
  match List.find? (fun kv => kv.1 == k) t with
  | some kv => kv.2
  | none => d

/-- Model of `TrinityEmailSender.send_notification`: map the priority through the fixed
subject table (defaulting to the `normal` entry) and delegate to `send_email` with the
message as body. -/
def send_notification (cfg : Config) (fs : FileSys) (ts : String)
    (net : Except PyError Unit) (message : String) (priority : String) :
    Except PyError SendResult :=
  let subject := lookupD notificationSubjects priority
    (lookupD notificationSubjects "normal" "")
  send_email cfg fs ts net { subject := subject, body := message }

/-- The `report_data` argument of `send_report`: a dict or any other (stringified) value. -/
inductive ReportData where
  | dict (entries : List (String × PyVal))
  | scalar (v : PyVal)
deriving DecidableEq, Repr

/-- The leading f-string of the HTML report (verbatim, including indentation). -/
def reportHtmlHead (rt ts : String) : String :=
  "\n        <html>\n        <body>\n        <h2>Trinity " ++ rt ++
  "</h2>\n        <p><strong>Generated:</strong> " ++ ts ++ "</p>\n        <hr>\n        "

/-- The trailing literal of the HTML report (verbatim, including indentation). -/
def reportHtmlTail : String :=
  "\n        <hr>\n        <p><em>Sent automatically by Trinity</em></p>\n        </body>\n        </html>\n        "

/-- The header of the plain-text report: title line plus a 50-character rule. -/
def textHead (rt : String) : String :=
  "Trinity " ++ rt ++ "\n" ++ String.mk (List.replicate 50 '=') ++ "\n"

/-- Model of `TrinityEmailSender.send_report`: the HTML and plain-text bodies are built by
the same `+=` loops as the source (a `foldl` per rendering) and handed to `send_email`. -/
def send_report (cfg : Config) (fs : FileSys) (ts : String) (net : Except PyError Unit)
    (report_data : ReportData) (report_type : String) : Except PyError SendResult :=
  let html_body :=
    (match report_data with
     | .dict entries =>
         entries.foldl
           (fun acc kv => acc ++ "<p><strong>" ++ kv.1 ++ ":</strong> " ++ kv.2.pyStr ++ "</p>")
           (reportHtmlHead report_type ts)
     | .scalar v => reportHtmlHead report_type ts ++ "<pre>" ++ v.pyStr ++ "</pre>") ++
    reportHtmlTail
  let text_body :=
    match report_data with
    | .dict entries =>
        entries.foldl (fun acc kv => acc ++ kv.1 ++ ": " ++ kv.2.pyStr ++ "\n")
          (textHead report_type)
    | .scalar v => textHead report_type ++ v.pyStr
  send_email cfg fs ts net
    { subject := "Trinity " ++ report_type, body := text_body, html_body := some html_body }

/-- A filesystem side effect performed by one of the scripts. -/
inductive FsOp where
  | write (path : String) (content : String)
  | chmod (path : String) (mode : Nat)
deriving DecidableEq, Repr

/-- State of the config file on disk: its bytes and, when an explicit `chmod` has been
applied, its permission mode (`none` = whatever the process default creation mode was). -/
structure FileState where
  content : String
  mode : Option Nat
deriving DecidableEq, Repr

/-- The config file name shared by all three scripts. -/
def configFileName : String := "email_config.json"

/-- The default config written by `TrinityEmailSender.load_config` when the file is absent. -/
def defaultSenderConfig : Config :=
  [("smtp_server", .str "smtp.gmail.com"), ("smtp_port", .int 587),
   ("sender_email", .str "your_email@gmail.com"),
   ("sender_password", .str "your_app_password"),
   ("default_recipient", .str "your_email@gmail.com")]

/-- Observable result of a config-script run: the config file afterwards, the returned
value (or raised exception), the filesystem operations performed, and the printed lines. -/
structure ScriptResult where
  file : Option FileState
  ret : Except PyError Config
  ops : List FsOp
  output : List String

/-- Model of `TrinityEmailSender.load_config`: read and parse the file when it exists
(`parse` models `json.load`); otherwise write the default config — with no `chmod` —
and return it. -/
def load_config (file0 : Option FileState) (parse : String → Except PyError Config) :
    ScriptResult :=
  match file0 with
  | some st => { file := some st, ret := parse st.content, ops := [], output := [] }
  | none =>
      { file := some { content := jsonDumps 4 defaultSenderConfig, mode := none },
        ret := .ok defaultSenderConfig,
        ops := [.write configFileName (jsonDumps 4 defaultSenderConfig)],
        output := ["Created default config file: email_config.json",
                   "Please edit it with your email settings!"] }

/-- The placeholder config written by `quick_email_setup.py`. -/
def quickConfig : Config :=
  [("smtp_server", .str "smtp.gmail.com"), ("smtp_port", .int 587),
   ("sender_email", .str "your_email@gmail.com"),
   ("sender_password", .str "your_app_password_here"),
   ("default_recipient", .str "your_email@gmail.com")]

/-- The test `'password' in key.lower()` of the existing-config display loop. -/
def keyIsPassword (k : String) : Bool := strContains (pyToLower k) "password"

/-- One displayed line of the existing configuration: password-like keys are rendered as
`len(str(value))` asterisks, other keys verbatim. -/
def displayLine (kv : String × PyVal) : String :=
  if keyIsPassword kv.1 then
    "  " ++ kv.1 ++ ": " ++ String.mk (List.replicate kv.2.pyStr.length '*')
  else
    "  " ++ kv.1 ++ ": " ++ kv.2.pyStr

/-- The four lines `quick_email_setup.py` prints before touching the filesystem. -/
def quickPreamble : List String :=
  ["🚀 Trinity Quick Email Setup",
   String.mk (List.replicate 40 '='),
   "Creating default Gmail configuration...",
   "You can customize this later by editing email_config.json"]

/-- The two lines printed when the config file already exists, before `json.load` runs. -/
def quickExistsLines : List String :=
  ["⚠️  Configuration file email_config.json already exists!",
   "Current configuration:"]

/-- The lines printed after a fresh config file has been written and chmodded. -/
def quickCreatedLines : List String :=
  ["\n✅ Configuration template saved to email_config.json",
   "📁 File permissions set to secure (600)",
   "\n🔧 Next Steps:",
   "1. Edit email_config.json and replace placeholders with your actual email settings",
   "2. For Gmail users:",
   "   - Use your Gmail address for sender_email",
   "   - Generate an App Password at: https://myaccount.google.com/apppasswords",
   "   - Use the App Password (not your regular password) for sender_password",
   "3. Run: python3 send_email.py --test",
   "\n📝 Configuration format:",
   jsonDumps 2 quickConfig]

/-- Model of `create_email_config` from `quick_email_setup.py`: when the file exists it is
only read — its displayed values are masked for password-like keys — and returned; when
absent the placeholder config is written and the file chmodded to `0o600`. A `json.load`
failure propagates (after the warning lines have printed) and writes nothing. -/
def create_email_config (file0 : Option FileState)
    (parse : String → Except PyError Config) : ScriptResult :=
  match file0 with
  | some st =>
      match parse st.content with
      | .ok existing =>
          { file := some st, ret := .ok existing, ops := [],
            output := quickPreamble ++ quickExistsLines ++ existing.map displayLine }
      | .error e =>
          { file := some st, ret := .error e, ops := [],
            output := quickPreamble ++ quickExistsLines }
  | none =>
      { file := some { content := jsonDumps 4 quickConfig, mode := some 0o600 },
        ret := .ok quickConfig,
        ops := [.write configFileName (jsonDumps 4 quickConfig),
                .chmod configFileName 0o600],
        output := quickPreamble ++ quickCreatedLines }

/-- Console inputs consumed by `setup_email.py`, in prompt order. `sender_password` is
read through `getpass` and not stripped; the others model `input(...)`. On the three
fixed-provider choices the host and port prompts never run, so those fields are unread. -/
structure SetupInputs where
  choice : String
  smtp_server : String
  smtp_port : String
  sender_email : String
  sender_password : String
  default_recipient : String
deriving DecidableEq, Repr

/-- Numeric value of a run of decimal digits. -/
def digitsVal (cs : List Char) : Nat :=
  cs.foldl (fun n c => n * 10 + (c.toNat - 48)) 0

/-- Python `int(s)` on a string: strip whitespace, optional sign, decimal digits;
anything else raises `ValueError`. (Grouping underscores, which this repository never
feeds to `int`, are not modelled.) -/
def pyInt (s : String) : Except PyError Int :=
  let t := pyStrip s
  let sd : Int × List Char :=
    match t.toList with
    | '+' :: rest => (1, rest)
    | '-' :: rest => (-1, rest)
    | l => (1, l)
  if sd.2.isEmpty || !(sd.2.all Char.isDigit) then
    .error (.valueError ("invalid literal for int() with base 10: " ++ s))
  else
    .ok (sd.1 * (digitsVal sd.2 : Int))

/-- Outcome of a successful `setup_email_config` run: the config it assembled and the
filesystem operations it performed. -/
structure SetupResult where
  config : Config
  ops : List FsOp
deriving DecidableEq, Repr

/-- Provider dispatch of `setup_email_config` on the stripped choice: choices 1-3 fix the
host and port 587; any other choice prompts for host and port, the blank (stripped) port
field defaulting to the string `"587"` before `int()` runs, so only a non-empty
non-integer entry raises `ValueError`. -/
def setupServerPort (inp : SetupInputs) : Except PyError (String × Int) :=
  if (pyStrip inp.choice) == "1" then .ok ("smtp.gmail.com", 587)
  else if (pyStrip inp.choice) == "2" then .ok ("smtp-mail.outlook.com", 587)
  else if (pyStrip inp.choice) == "3" then .ok ("smtp.mail.yahoo.com", 587)
  else
    match pyInt (if (pyStrip inp.smtp_port) == "" then "587" else (pyStrip inp.smtp_port)) with
    | .ok port => .ok ((pyStrip inp.smtp_server), port)
    | .error e => .error e

/-- The configuration assembled by `setup_email_config`: host and port from the provider
dispatch, stripped sender address, unstripped password, and the default recipient falling
back to the sender address when left blank. -/
def setupConfig (inp : SetupInputs) (sp : String × Int) : Config :=
  [("smtp_server", .str sp.1), ("smtp_port", .int sp.2),
   ("sender_email", .str (pyStrip inp.sender_email)),
   ("sender_password", .str inp.sender_password),
   ("default_recipient", .str (if (pyStrip inp.default_recipient) == "" then (pyStrip inp.sender_email)
                               else (pyStrip inp.default_recipient)))]

/-- Model of `setup_email_config` from `setup_email.py`, through saving the file and the
`chmod`. The optional trailing test email touches no file state and is not modelled;
console output is omitted. -/
def setup_email_config (inp : SetupInputs) : Except PyError SetupResult :=
  match setupServerPort inp with
  | .error e => .error e
  | .ok sp =>
      .ok { config := setupConfig inp sp,
            ops := [.write configFileName (jsonDumps 4 (setupConfig inp sp)),
                    .chmod configFileName 0o600] }

/-- Filesystem operations of a `setup_email_config` run (none when it raises, since the
`int()` failure happens before any write). -/
def setupOps (inp : SetupInputs) : List FsOp :=
  match setup_email_config inp with
  | .ok r => r.ops
  | .error _ => []

/-- Does the operation write the given path? -/
def opWrites (p : String) : FsOp → Bool
  | .write q _ => q == p
  | _ => false

/-- Does the operation chmod the given path to owner read/write only (`0o600`)? -/
def opChmodsOwnerOnly (p : String) : FsOp → Bool
  | .chmod q m => q == p && m == 0o600
  | _ => false

/-- Every write of `p` in the trace is followed, strictly later, by a `chmod p 0o600`. -/
def securedAfterWrites (p : String) : List FsOp → Bool
  | [] => true
  | o :: rest => (!(opWrites p o) || rest.any (opChmodsOwnerOnly p)) && securedAfterWrites p rest

/-! ## Shared concrete objects and helper lemmas -/

/-- A fully populated configuration, as both bootstrappers write it. -/
def fullConfig : Config :=
  [("smtp_server", .str "smtp.example.com"), ("smtp_port", .int 587),
   ("sender_email", .str "a@example.com"), ("sender_password", .str "pw"),
   ("default_recipient", .str "d@example.com")]

/-- A filesystem with no readable files. -/
def emptyFs : FileSys :=
  { pathExists := fun _ => false,
    readFile := fun _ => .error (.ioError "No such file or directory") }

theorem foldl_append_join {α : Type} (f : α → String) :
    ∀ (l : List α) (init : String),
      l.foldl (fun acc x => acc ++ f x) init = init ++ String.join (l.map f)
  | [], init => by simp [String.join]
  | x :: xs, init => by
    rw [List.foldl_cons, foldl_append_join f xs (init ++ f x), List.map_cons]
    have h : String.join (f x :: xs.map f) = f x ++ String.join (xs.map f) := by
      simp [String.join_eq]; rfl
    rw [h, String.append_assoc]

theorem send_email_ok_message (cfg : Config) (fs : FileSys) (ts : String)
    (net : Except PyError Unit) (a : EmailArgs) (r : SendResult)
    (h : send_email cfg fs ts net a = .ok r) :
    buildMessage cfg fs ts a = .ok r.message := by
  unfold send_email at h
  cases hb : buildMessage cfg fs ts a with
  | error e => rw [hb] at h; exact Except.noConfusion h
  | ok m =>
    rw [hb] at h
    cases h
    rfl

theorem textParts_head (ts : String) (a : EmailArgs) :
    ∃ rest, textParts ts a = MimePart.text (a.body ++ timestampSuffix ts) "plain" :: rest := by
  unfold textParts
  cases hb : pyTruthy a.html_body <;> simp [hb]

theorem buildMessage_ok_shape (cfg : Config) (fs : FileSys) (ts : String) (a : EmailArgs)
    (m : EmailMessage) (h : buildMessage cfg fs ts a = .ok m) :
    m.subject = a.subject ∧
    m.toAddr = resolveTo cfg a ∧
    ∃ rest, m.parts = MimePart.text (a.body ++ timestampSuffix ts) "plain" :: rest := by
  obtain ⟨tl, htl⟩ := textParts_head ts a
  unfold buildMessage at h
  split at h
  · exact Except.noConfusion h
  · split at h
    · split at h
      · split at h
        · exact Except.noConfusion h
        · cases h
          exact ⟨rfl, rfl, tl ++ [MimePart.binary _ _], by rw [htl]; rfl⟩
      · cases h
        exact ⟨rfl, rfl, tl, htl⟩
    · cases h
      exact ⟨rfl, rfl, tl, htl⟩

theorem sendAttempt_ok_net (cfg : Config) (net : Except PyError Unit) (u : Unit)
    (h : sendAttempt cfg net = .ok u) : net = .ok u := by
  unfold sendAttempt at h
  repeat' split at h
  all_goals first
    | exact h
    | exact Except.noConfusion h

theorem trySend_false_of_net_error (cfg : Config) (t : Option PyVal) (e : PyError) :
    (trySend cfg t (.error e)).1 = false := by
  unfold trySend
  split
  · rename_i u heq
    exact Except.noConfusion (sendAttempt_ok_net cfg _ u heq)
  · rfl

theorem trySend_output_of_false (cfg : Config) (t : Option PyVal)
    (net : Except PyError Unit) (h : (trySend cfg t net).1 = false) :
    ∃ s, (trySend cfg t net).2 = ["❌ Error sending email: " ++ s] := by
  unfold trySend at *
  split at h
  · exact absurd h (by simp)
  · exact ⟨_, rfl⟩

/-! ## C1: error boundary of send_email -/

/-- C1, counterexample. The claim says `send_email` never raises past its own boundary for
any arguments, configuration and filesystem state. But the attachment-reading code runs
before the `try:` block: when the attachment path exists and the read fails (an unreadable
file, or a directory), the exception propagates out of `send_email`. -/
theorem send_email_raises_on_unreadable_attachment :
    send_email fullConfig
      { pathExists := fun _ => true, readFile := fun _ => .error (.ioError "Permission denied") }
      "2026-01-01 00:00:00" (.ok ()) { attachment_path := some "/tmp/blocked.txt" } =
      .error (.ioError "Permission denied") := by rfl

/-- C1, amended. Only the SMTP connect/STARTTLS/login/send sequence (and the config
lookups inside the `try:` block) is guarded: a failure there is caught and becomes a
`false` result with a printed error line, while an exception raised while building the
message — a config with no `sender_email` key, or an attachment that exists but cannot be
read — propagates past `send_email`. -/
theorem send_email_catches_only_transport_errors (cfg : Config) (fs : FileSys)
    (ts : String) (a : EmailArgs) :
    (∀ (e : PyError) (net : Except PyError Unit), buildMessage cfg fs ts a = .error e →
        send_email cfg fs ts net a = .error e)
    ∧ (∀ (m : EmailMessage) (net : Except PyError Unit), buildMessage cfg fs ts a = .ok m →
        ∃ r, send_email cfg fs ts net a = .ok r ∧ r.message = m ∧
          (∀ e, net = .error e → r.success = false) ∧
          (r.success = false → ∃ s, r.output = ["❌ Error sending email: " ++ s])) := by
  constructor
  · intro e net h
    unfold send_email
    rw [h]
  · intro m net h
    refine ⟨{ success := (trySend cfg m.toAddr net).1, message := m,
              output := (trySend cfg m.toAddr net).2 }, ?_, rfl, ?_, ?_⟩
    · unfold send_email
      rw [h]
    · intro e he
      rw [he]
      exact trySend_false_of_net_error cfg m.toAddr e
    · exact trySend_output_of_false cfg m.toAddr net

theorem send_email_catches_only_transport_errors_witness :
    ∃ r, send_email fullConfig emptyFs "2026-01-01 00:00:00"
        (.error (.smtpError "connection refused")) {} = .ok r ∧
      r.success = false := by
  obtain ⟨r, hr, _, hnet, _⟩ :=
    (send_email_catches_only_transport_errors fullConfig emptyFs "2026-01-01 00:00:00" {}).2
      { fromAddr := .str "a@example.com", toAddr := some (.str "d@example.com"),
        subject := "Trinity Notification",
        parts := [.text "Hello from Trinity!\n\nSent from Trinity at 2026-01-01 00:00:00" "plain"] }
      (.error (.smtpError "connection refused")) (by rfl)
  exact ⟨r, hr, hnet _ rfl⟩

/-! ## C2: file permissions after config writes -/

/-- C2, counterexample. The claim says every component restricts the config file to owner
read/write after writing it. The two bootstrappers do, but the Sender's implicit
default-config creation in `load_config` writes the file and never calls `chmod`: its
operation trace contains a write of `email_config.json` with no following `chmod 0o600`. -/
theorem load_config_write_unsecured :
    securedAfterWrites configFileName
      (load_config none (fun _ => .ok [])).ops = false := by rfl

/-- C2, amended. Both bootstrappers (`quick_email_setup.py` in its file-creating branch,
and `setup_email.py` whenever it completes) follow every write of `email_config.json`
with `chmod 0o600`; the Sender's implicit default-config creation in `load_config` does
not — its write is never followed by a `chmod`. -/
theorem config_writes_secured_by_bootstrappers_only :
    (∀ (file0 : Option FileState) (parse : String → Except PyError Config),
        securedAfterWrites configFileName (create_email_config file0 parse).ops = true)
    ∧ (∀ inp : SetupInputs, securedAfterWrites configFileName (setupOps inp) = true)
    ∧ (∀ parse : String → Except PyError Config,
        securedAfterWrites configFileName (load_config none parse).ops = false) := by
  refine ⟨?_, ?_, ?_⟩
  · intro file0 parse
    cases file0 with
    | none => rfl
    | some st =>
      cases h : parse st.content <;>
        simp [create_email_config, h, securedAfterWrites]
  · intro inp
    unfold setupOps
    cases h : setup_email_config inp with
    | error e => rfl
    | ok r =>
      unfold setup_email_config at h
      split at h
      · exact Except.noConfusion h
      · cases h
        rfl
  · intro parse
    rfl

/-! ## C3: port parsing in the interactive custom-SMTP path -/

/-- C3, counterexample. The claim says the port defaults to 587 when non-numeric input is
entered. It does not: on the custom path with port input `"abc"`, `int("abc")` raises
`ValueError` and the setup fails instead of defaulting. -/
theorem custom_port_alpha_input_raises :
    setup_email_config
      { choice := "4", smtp_server := "smtp.example.com", smtp_port := "abc",
        sender_email := "user@example.com", sender_password := "pw",
        default_recipient := "" } =
      .error (.valueError "invalid literal for int() with base 10: abc") := by rfl

/-- C3, amended. On the custom-SMTP path (choice 4 or any unrecognized choice) the port
defaults to 587 only when the port field is blank after stripping whitespace; any
non-empty entry is handed to `int()`, so a non-empty non-integer entry raises
`ValueError` rather than defaulting. -/
theorem custom_port_blank_defaults_nonnumeric_raises (inp : SetupInputs)
    (h1 : (pyStrip inp.choice) ≠ "1") (h2 : (pyStrip inp.choice) ≠ "2") (h3 : (pyStrip inp.choice) ≠ "3") :
    ((pyStrip inp.smtp_port) = "" →
      ∃ r, setup_email_config inp = .ok r ∧ r.config.get "smtp_port" = some (.int 587))
    ∧ (∀ e, (pyStrip inp.smtp_port) ≠ "" → pyInt (pyStrip inp.smtp_port) = .error e →
        setup_email_config inp = .error e) := by
  have e1 : ((pyStrip inp.choice) == "1") = false := by simp [h1]
  have e2 : ((pyStrip inp.choice) == "2") = false := by simp [h2]
  have e3 : ((pyStrip inp.choice) == "3") = false := by simp [h3]
  constructor
  · intro hb
    have hsp : setupServerPort inp = .ok ((pyStrip inp.smtp_server), 587) := by
      unfold setupServerPort
      rw [e1, e2, e3]
      simp only [Bool.false_eq_true, if_false]
      have : ((pyStrip inp.smtp_port) == "") = true := by simp [hb]
      rw [this]
      rfl
    refine ⟨{ config := setupConfig inp (pyStrip inp.smtp_server, 587),
              ops := [.write configFileName (jsonDumps 4 (setupConfig inp (pyStrip inp.smtp_server, 587))),
                      .chmod configFileName 0o600] }, ?_, ?_⟩
    · unfold setup_email_config
      rw [hsp]
    · simp [setupConfig, Config.get]
  · intro e hne hpe
    have hsp : setupServerPort inp = .error e := by
      unfold setupServerPort
      rw [e1, e2, e3]
      simp only [Bool.false_eq_true, if_false]
      have : ((pyStrip inp.smtp_port) == "") = false := by simp [hne]
      rw [this]
      simp only [Bool.false_eq_true, if_false]
      rw [hpe]
    unfold setup_email_config
    rw [hsp]

theorem custom_port_blank_defaults_nonnumeric_raises_witness :
    ∃ r, setup_email_config
        { choice := "4", smtp_server := "smtp.example.com", smtp_port := "   ",
          sender_email := "user@example.com", sender_password := "pw",
          default_recipient := "" } = .ok r ∧
      r.config.get "smtp_port" = some (.int 587) :=
  (custom_port_blank_defaults_nonnumeric_raises _
    (by decide) (by decide) (by decide)).1 (by decide)

/-! ## C4: the unconditional timestamp suffix -/

/-- C4. For every body string (the empty string included) and every combination of the
other arguments, the plain-text part of the message `send_email` hands to `sendmail` is
exactly the body followed by the non-empty generated timestamp suffix line; there is no
opt-out. -/
theorem plain_part_is_body_with_timestamp (cfg : Config) (fs : FileSys) (ts : String)
    (net : Except PyError Unit) (a : EmailArgs) (r : SendResult)
    (h : send_email cfg fs ts net a = .ok r) :
    r.message.parts.head? = some (.text (a.body ++ timestampSuffix ts) "plain")
    ∧ timestampSuffix ts ≠ "" := by
  obtain ⟨-, -, rest, hp⟩ := buildMessage_ok_shape cfg fs ts a r.message
    (send_email_ok_message cfg fs ts net a r h)
  constructor
  · rw [hp]
    rfl
  · intro hc
    have h2 := congrArg String.length hc
    simp [timestampSuffix, String.length_append] at h2
    exact absurd h2.1 (by decide)

theorem plain_part_is_body_with_timestamp_witness :
    send_email fullConfig emptyFs "2026-01-01 00:00:00" (.ok ()) { body := "" } =
      .ok { success := true,
            message := { fromAddr := .str "a@example.com",
                         toAddr := some (.str "d@example.com"),
                         subject := "Trinity Notification",
                         parts := [.text ("" ++ timestampSuffix "2026-01-01 00:00:00") "plain"] },
            output := ["✅ Email sent successfully to d@example.com"] } ∧
    ({ success := true,
       message := { fromAddr := .str "a@example.com",
                    toAddr := some (.str "d@example.com"),
                    subject := "Trinity Notification",
                    parts := [.text ("" ++ timestampSuffix "2026-01-01 00:00:00") "plain"] },
       output := ["✅ Email sent successfully to d@example.com"] } : SendResult).message.parts.head? =
      some (.text ("" ++ timestampSuffix "2026-01-01 00:00:00") "plain") :=
  ⟨by rfl,
   (plain_part_is_body_with_timestamp fullConfig emptyFs "2026-01-01 00:00:00" (.ok ())
     { body := "" } _ (by rfl)).1⟩

/-! ## C5: masking of password-like keys in the quick bootstrapper display -/

/-- C5, counterexample. The claim says the true secret value never appears in the
displayed output. When the stored secret is itself the mask character `"*"`, the
displayed line for `sender_password` is `  sender_password: *`, which contains — indeed
ends with — the secret verbatim. -/
theorem mask_can_equal_secret :
    "  sender_password: *" ∈
      (create_email_config (some { content := "irrelevant", mode := none })
        (fun _ => .ok [("sender_password", PyVal.str "*")])).output
    ∧ strContains "  sender_password: *" (PyVal.str "*").pyStr = true :=
  ⟨by decide, by decide⟩

/-- C5, amended. When the quick bootstrapper displays an existing configuration, every
key containing `password` (case-insensitively) is rendered with exactly
`len(str(value))` mask characters, and the rendering depends only on the secret's
length, never on its characters; the secret therefore cannot be recovered from the
display, though a secret that is itself a run of asterisks coincides with its own mask. -/
theorem password_keys_masked (st : FileState) (parse : String → Except PyError Config)
    (c : Config) (hp : parse st.content = .ok c) (k : String) (v : PyVal)
    (hin : (k, v) ∈ c) (hk : keyIsPassword k = true) :
    displayLine (k, v) ∈ (create_email_config (some st) parse).output ∧
    displayLine (k, v) = "  " ++ k ++ ": " ++ String.mk (List.replicate v.pyStr.length '*') ∧
    (∀ w : PyVal, w.pyStr.length = v.pyStr.length → displayLine (k, w) = displayLine (k, v)) := by
  refine ⟨?_, ?_, ?_⟩
  · simp only [create_email_config, hp]
    exact List.mem_append_right _ (List.mem_map_of_mem displayLine hin)
  · simp [displayLine, hk]
  · intro w hw
    simp [displayLine, hk, hw]

theorem password_keys_masked_witness :
    displayLine ("sender_password", PyVal.str "hunter2") ∈
      (create_email_config (some { content := "x", mode := none })
        (fun _ => .ok [("sender_password", PyVal.str "hunter2")])).output ∧
    displayLine ("sender_password", PyVal.str "hunter2") =
      "  " ++ "sender_password" ++ ": " ++
        String.mk (List.replicate (PyVal.str "hunter2").pyStr.length '*') := by
  have h := password_keys_masked { content := "x", mode := none }
    (fun _ => .ok [("sender_password", PyVal.str "hunter2")])
    [("sender_password", PyVal.str "hunter2")] rfl "sender_password" (PyVal.str "hunter2")
    (by decide) (by decide)
  exact ⟨h.1, h.2.1⟩

/-! ## C6: idempotence of the quick bootstrapper -/

/-- C6. The non-interactive bootstrapper never destroys or modifies an existing config
file — when the file exists its state is returned untouched, whatever its content and
whether or not it parses — and therefore running it a second time without deleting the
file leaves the file byte-identical to what the first run left. -/
theorem quick_setup_idempotent :
    (∀ (st : FileState) (parse : String → Except PyError Config),
        (create_email_config (some st) parse).file = some st)
    ∧ (∀ (file0 : Option FileState) (p1 p2 : String → Except PyError Config),
        (create_email_config (create_email_config file0 p1).file p2).file =
          (create_email_config file0 p1).file) := by
  have hsome : ∀ (st : FileState) (parse : String → Except PyError Config),
      (create_email_config (some st) parse).file = some st := by
    intro st parse
    cases h : parse st.content <;> simp [create_email_config, h]
  refine ⟨hsome, ?_⟩
  intro file0 p1 p2
  cases file0 with
  | none => exact hsome _ p2
  | some st =>
    rw [hsome st p1]
    exact hsome st p2

/-! ## C7: a missing attachment path is skipped, not an error -/

theorem textParts_no_binary (ts : String) (a : EmailArgs) :
    (textParts ts a).all (fun pt => !pt.isBinary) = true := by
  unfold textParts
  cases hb : pyTruthy a.html_body <;> simp [MimePart.isBinary]

/-- C7. When the attachment path does not exist on the filesystem at call time, the
message `send_email` builds contains no binary part, and the call cannot fail because of
the missing path: the only exception that can still escape is the unrelated missing
`sender_email` key. -/
theorem missing_attachment_skipped (cfg : Config) (fs : FileSys) (ts : String)
    (net : Except PyError Unit) (a : EmailArgs) (p : String)
    (hp : a.attachment_path = some p) (hex : fs.pathExists p = false) :
    (∀ r, send_email cfg fs ts net a = .ok r →
        r.message.parts.all (fun pt => !pt.isBinary) = true)
    ∧ (∀ e, send_email cfg fs ts net a = .error e → e = .keyError "sender_email") := by
  have hguard : ∀ q : String, a.attachment_path = some q →
      (q != "" && fs.pathExists q) = false := by
    intro q hq
    rw [hp] at hq
    cases Option.some.inj hq
    rw [hex]
    simp
  constructor
  · intro r hr
    have hb := send_email_ok_message cfg fs ts net a r hr
    unfold buildMessage at hb
    split at hb
    · exact Except.noConfusion hb
    · split at hb
      · rename_i q hq
        rw [hguard q hq] at hb
        simp only [Bool.false_eq_true, if_false] at hb
        have hm := Except.ok.inj hb
        rw [← hm]
        exact textParts_no_binary ts a
      · rename_i hq
        have hm := Except.ok.inj hb
        rw [← hm]
        exact textParts_no_binary ts a
  · intro e he
    unfold send_email at he
    cases hb : buildMessage cfg fs ts a with
    | ok m => rw [hb] at he; exact Except.noConfusion he
    | error e2 =>
      rw [hb] at he
      cases Except.error.inj he
      unfold buildMessage at hb
      split at hb
      · rename_i e3 heq3
        cases Except.error.inj hb
        unfold Config.item at heq3
        split at heq3
        · exact Except.noConfusion heq3
        · exact (Except.error.inj heq3).symm
      · split at hb
        · rename_i q hq
          rw [hguard q hq] at hb
          simp only [Bool.false_eq_true, if_false] at hb
          exact Except.noConfusion hb
        · exact Except.noConfusion hb

theorem missing_attachment_skipped_witness :
    send_email fullConfig emptyFs "2026-01-01 00:00:00" (.ok ())
        { attachment_path := some "/tmp/missing.txt" } =
      .ok { success := true,
            message := { fromAddr := .str "a@example.com",
                         toAddr := some (.str "d@example.com"),
                         subject := "Trinity Notification",
                         parts := [.text ("Hello from Trinity!" ++
                           timestampSuffix "2026-01-01 00:00:00") "plain"] },
            output := ["✅ Email sent successfully to d@example.com"] } ∧
    ({ success := true,
       message := { fromAddr := .str "a@example.com",
                    toAddr := some (.str "d@example.com"),
                    subject := "Trinity Notification",
                    parts := [.text ("Hello from Trinity!" ++
                      timestampSuffix "2026-01-01 00:00:00") "plain"] },
       output := ["✅ Email sent successfully to d@example.com"] } : SendResult).message.parts.all
      (fun pt => !pt.isBinary) = true :=
  ⟨by rfl,
   (missing_attachment_skipped fullConfig emptyFs "2026-01-01 00:00:00" (.ok ())
     { attachment_path := some "/tmp/missing.txt" } "/tmp/missing.txt" rfl rfl).1 _ (by rfl)⟩

/-! ## C8: the fixed notification subjects -/

/-- C8. For every message and every priority in `low`/`normal`/`high`,
`send_notification` delegates to `send_email` with the message as body and the subject
equal to that priority's fixed emoji-prefixed line. -/
theorem notification_priority_subjects (cfg : Config) (fs : FileSys) (ts : String)
    (net : Except PyError Unit) (msg : String) :
    send_notification cfg fs ts net msg "low" =
      send_email cfg fs ts net { subject := "🔔 Trinity Notification", body := msg }
    ∧ send_notification cfg fs ts net msg "normal" =
      send_email cfg fs ts net { subject := "📧 Trinity Alert", body := msg }
    ∧ send_notification cfg fs ts net msg "high" =
      send_email cfg fs ts net { subject := "🚨 Trinity Important Alert", body := msg } :=
  ⟨rfl, rfl, rfl⟩

/-! ## C9: parallel renderings of send_report -/

/-- C9. For every key-value mapping, `send_report` delegates to `send_email` with a
plain-text body whose entry section is one `key: value` line per entry and an HTML body
with one `<p>` paragraph per entry, both in the mapping's iteration order; any non-mapping
report value is stringified wholesale into both renderings. -/
theorem report_renders_entries_in_order (cfg : Config) (fs : FileSys) (ts : String)
    (net : Except PyError Unit) (rt : String) :
    (∀ entries : List (String × PyVal),
        send_report cfg fs ts net (.dict entries) rt =
          send_email cfg fs ts net
            { subject := "Trinity " ++ rt,
              body := textHead rt ++
                String.join (entries.map (fun kv => kv.1 ++ ": " ++ kv.2.pyStr ++ "\n")),
              html_body := some (reportHtmlHead rt ts ++
                String.join (entries.map (fun kv =>
                  "<p><strong>" ++ kv.1 ++ ":</strong> " ++ kv.2.pyStr ++ "</p>")) ++
                reportHtmlTail) })
    ∧ (∀ v : PyVal,
        send_report cfg fs ts net (.scalar v) rt =
          send_email cfg fs ts net
            { subject := "Trinity " ++ rt, body := textHead rt ++ v.pyStr,
              html_body := some (reportHtmlHead rt ts ++ "<pre>" ++ v.pyStr ++ "</pre>" ++
                reportHtmlTail) }) := by
  constructor
  · intro entries
    simp only [send_report]
    refine congrArg (send_email cfg fs ts net) ?_
    have hbody : entries.foldl (fun acc kv => acc ++ kv.1 ++ ": " ++ kv.2.pyStr ++ "\n")
        (textHead rt) =
        textHead rt ++ String.join (entries.map (fun kv => kv.1 ++ ": " ++ kv.2.pyStr ++ "\n")) := by
      have hf : (fun (acc : String) (kv : String × PyVal) =>
            acc ++ kv.1 ++ ": " ++ kv.2.pyStr ++ "\n")
          = (fun acc kv => acc ++ (kv.1 ++ ": " ++ kv.2.pyStr ++ "\n")) := by
        funext acc kv
        simp [String.append_assoc]
      rw [hf, foldl_append_join]
    have hhtml : entries.foldl (fun acc kv =>
          acc ++ "<p><strong>" ++ kv.1 ++ ":</strong> " ++ kv.2.pyStr ++ "</p>")
        (reportHtmlHead rt ts) =
        reportHtmlHead rt ts ++ String.join (entries.map (fun kv =>
          "<p><strong>" ++ kv.1 ++ ":</strong> " ++ kv.2.pyStr ++ "</p>")) := by
      have hf : (fun (acc : String) (kv : String × PyVal) =>
            acc ++ "<p><strong>" ++ kv.1 ++ ":</strong> " ++ kv.2.pyStr ++ "</p>")
          = (fun acc kv =>
            acc ++ ("<p><strong>" ++ kv.1 ++ ":</strong> " ++ kv.2.pyStr ++ "</p>")) := by
        funext acc kv
        simp [String.append_assoc]
      rw [hf, foldl_append_join]
    rw [hbody, hhtml]
  · intro v
    rfl

/-! ## C10: falsy to_email is replaced by the default recipient -/

/-- C10. `send_email` treats an explicitly passed empty recipient string exactly like an
omitted one: whenever `to_email` is `None` or `""`, the recipient of the built message is
`config.get("default_recipient")`, so the empty string is never used as the actual
recipient. -/
theorem falsy_recipient_replaced (cfg : Config) (fs : FileSys) (ts : String)
    (net : Except PyError Unit) (a : EmailArgs) (r : SendResult)
    (hf : a.to_email = none ∨ a.to_email = some "")
    (h : send_email cfg fs ts net a = .ok r) :
    r.message.toAddr = cfg.get "default_recipient" := by
  obtain ⟨-, hto, -⟩ := buildMessage_ok_shape cfg fs ts a r.message
    (send_email_ok_message cfg fs ts net a r h)
  rw [hto]
  unfold resolveTo
  have hfalse : pyTruthy a.to_email = false := by
    rcases hf with hf | hf <;> rw [hf] <;> rfl
  rw [hfalse]
  simp

theorem falsy_recipient_replaced_witness :
    send_email fullConfig emptyFs "2026-01-01 00:00:00" (.ok ()) { to_email := some "" } =
      .ok { success := true,
            message := { fromAddr := .str "a@example.com",
                         toAddr := some (.str "d@example.com"),
                         subject := "Trinity Notification",
                         parts := [.text ("Hello from Trinity!" ++
                           timestampSuffix "2026-01-01 00:00:00") "plain"] },
            output := ["✅ Email sent successfully to d@example.com"] } ∧
    ({ success := true,
       message := { fromAddr := .str "a@example.com",
                    toAddr := some (.str "d@example.com"),
                    subject := "Trinity Notification",
                    parts := [.text ("Hello from Trinity!" ++
                      timestampSuffix "2026-01-01 00:00:00") "plain"] },
       output := ["✅ Email sent successfully to d@example.com"] } : SendResult).message.toAddr =
      Config.get fullConfig "default_recipient" :=
  ⟨by rfl,
   falsy_recipient_replaced fullConfig emptyFs "2026-01-01 00:00:00" (.ok ())
     { to_email := some "" } _ (Or.inr rfl) (by rfl)⟩

end Trinity
